import Mathlib

/-!
# Kirimi Go client: a shallow embedding of `kirimi.go`

The client wraps four REST endpoints.  The embedding keeps every branch of the
Go functions; the standard library pieces they call (`http.NewRequest`,
`http.Client.Do`, `io.ReadAll`, `json.Unmarshal` of a response body,
`time.Time` parsing) are fields of a `Runtime` record, so that every theorem
holds for all behaviours of the network and of those library calls.

Conventions
* Go `string` is Lean `String`; `len(s)` is the UTF-8 byte length
  `String.utf8ByteSize`.
* Go `int` is Lean `Int`.
* A Go result pair `(*T, error)` is `Option T × Option KError`; every operation
  also returns the list of HTTP requests it handed to `HTTPClient.Do`.
* A decoded JSON value (Go `interface{}` as produced by `encoding/json`) is the
  tree `JSON`; `JSON.null` is the nil interface.
-/

namespace Kirimi

/-! ## Constants (kirimi.go 12-32) -/

def DefaultBaseURL : String := "https://api.kirimi.id"
def APIVersion : String := "v1"
def ContentType : String := "application/json"
def MaxMessageLength : Int := 1200

def PackageFree : Int := 1
def PackageLite1 : Int := 2
def PackageBasic1 : Int := 3
def PackagePro1 : Int := 4
def PackageLite2 : Int := 6
def PackageBasic2 : Int := 7
def PackagePro2 : Int := 8
def PackageLite3 : Int := 9
def PackageBasic3 : Int := 10
def PackagePro3 : Int := 11

/-- The `// Package Types` const block, in declaration order: each declared
name with its value. -/
def packageTypes : List (String × Int) :=
  [("PackageFree", PackageFree), ("PackageLite1", PackageLite1),
   ("PackageBasic1", PackageBasic1), ("PackagePro1", PackagePro1),
   ("PackageLite2", PackageLite2), ("PackageBasic2", PackageBasic2),
   ("PackagePro2", PackagePro2), ("PackageLite3", PackageLite3),
   ("PackageBasic3", PackageBasic3), ("PackagePro3", PackagePro3)]

/-! ## Helper predicates (kirimi.go 309-326) -/

/-- Go `IsBasicOrProPackage` checks if the package supports OTP features. -/
def IsBasicOrProPackage (packageID : Int) : Bool :=
  packageID == PackageBasic1 || packageID == PackagePro1 ||
    packageID == PackageBasic2 || packageID == PackagePro2 ||
    packageID == PackageBasic3 || packageID == PackagePro3

/-- Go `IsMediaSupportedPackage` checks if the package supports media features. -/
def IsMediaSupportedPackage (packageID : Int) : Bool :=
  packageID != PackageFree

/-- Go `IsFreePackage` checks if the package is free. -/
def IsFreePackage (packageID : Int) : Bool :=
  packageID == PackageFree

/-! ## Decoded JSON values -/

/-- A JSON value as `encoding/json` decodes it into an `interface{}`:
nil, bool, float64, string, `[]interface{}` or `map[string]interface{}`.
A number is carried by the decimal text `json.Marshal` writes for the float64
(the shortest text that parses back to it, as in `25`, `25.5` or `1e+21`).
An object is the list of the map's entries. -/
inductive JSON where
  | null
  | bool (b : Bool)
  | number (lit : String)
  | string (s : String)
  | array (xs : List JSON)
  | object (kvs : List (String × JSON))

/-- The word `json.UnmarshalTypeError.Value` uses for a JSON value. -/
def JSON.kind : JSON → String
  | .null => "null"
  | .bool _ => "bool"
  | .number _ => "number"
  | .string _ => "string"
  | .array _ => "array"
  | .object _ => "object"

/-- An error value made by the standard library. -/
inductive LibError where
  /-- Go `*json.UnmarshalTypeError`: a JSON value of kind `value` met a Go
  target of type `goType` (field `field` of struct `struct`). -/
  | unmarshalType (value goType struct field : String)
  /-- Any other library error, by its text. -/
  | other (text : String)
  deriving DecidableEq, Repr

def LibError.text : LibError → String
  | .unmarshalType v t s f =>
      if s == "" then "json: cannot unmarshal " ++ v ++ " into Go value of type " ++ t
      else "json: cannot unmarshal " ++ v ++ " into Go struct field " ++ s ++ "." ++ f ++
        " of type " ++ t
  | .other t => t

/-! ## `encoding/json`: decoding an object into a flat struct

The client re-encodes `resp.Data` with `json.Marshal` and decodes the bytes
into a response struct with `json.Unmarshal`.  The bytes in between are
modelled by the value tree itself: a decoded tree always marshals, and parsing
the marshalled text gives the tree back, object members in sorted key order.
-/

/-- Go `json.Marshal` of a decoded value.  It cannot fail on a tree that came out
of `json.Unmarshal` (finite floats, string keys); the result stands for the
produced bytes, in which every number is the text the tree carries for it. -/
def jsonMarshal (v : JSON) : Except LibError JSON := .ok v

/-- The fold `encoding/json` applies to a name before its case-insensitive
lookup (`foldName`/`foldRune`): every rune goes to the smallest rune of its
simple-folding orbit.  ASCII letters go to upper case, U+017F (long s) to `S`
and U+212A (Kelvin sign) to `K`; no other rune shares an orbit with an ASCII
rune, and such runes are left as they are here, which does not change whether
a key matches one of the (ASCII) field names of this package. -/
def foldRune (r : Char) : Char :=
  if r.isLower then r.toUpper
  else if r = Char.ofNat 0x17F then 'S'
  else if r = Char.ofNat 0x212A then 'K'
  else r

def foldName (s : String) : String := String.mk (s.data.map foldRune)

/-- The struct field an object key is stored into: the field whose JSON name
is the key, else the first one equal to it under `foldName`. -/
def findField (fields : List String) (key : String) : Option String :=
  match fields.find? (fun f => f == key) with
  | some f => some f
  | none => fields.find? (fun f => foldName f == foldName key)

/-- Insertion of an entry into a list of entries sorted by key.  Keys are
compared rune by rune, which orders them as their UTF-8 bytes do. -/
def insertKey (kv : String × JSON) : List (String × JSON) → List (String × JSON)
  | [] => [kv]
  | x :: xs => if kv.1.data < x.1.data then kv :: x :: xs else x :: insertKey kv xs

/-- Go `json.Marshal` writes the entries of a map sorted by key. -/
def sortKeys : List (String × JSON) → List (String × JSON)
  | [] => []
  | kv :: rest => insertKey kv (sortKeys rest)

/-- What storing one JSON value into one struct field does. -/
inductive Store (α : Type) where
  /-- The field is written (or, for `null`, left alone). -/
  | set (a : α)
  /-- A type mismatch: the decoder records the error and goes on. -/
  | mismatch (e : LibError)
  /-- An error of an `UnmarshalJSON` method: decoding stops at once. -/
  | abort (e : LibError)

def storeString {α : Type} (struct field : String) (v : JSON) (put : String → α) (keep : α) :
    Store α :=
  match v with
  | .null => .set keep
  | .string s => .set (put s)
  | v => .mismatch (.unmarshalType v.kind "string" struct field)

def storeBool {α : Type} (struct field : String) (v : JSON) (put : Bool → α) (keep : α) :
    Store α :=
  match v with
  | .null => .set keep
  | .bool b => .set (put b)
  | v => .mismatch (.unmarshalType v.kind "bool" struct field)

/-- The value of a non-empty run of decimal digits. -/
def digitsValue : List Char → Option Nat
  | [] => none
  | ds => ds.foldl (fun acc ch => acc.bind fun n =>
      if ch.isDigit then some (10 * n + (ch.toNat - '0'.toNat)) else none) (some 0)

/-- Go `strconv.ParseInt(lit, 10, 64)`: an optional sign, then decimal digits,
with a value in the int64 range; `none` stands for its error. -/
def parseInt (lit : String) : Option Int :=
  match lit.data with
  | '-' :: ds =>
      (digitsValue ds).bind fun n => if n ≤ 2 ^ 63 then some (-(n : Int)) else none
  | '+' :: ds => (digitsValue ds).bind fun n => if n < 2 ^ 63 then some (n : Int) else none
  | ds => (digitsValue ds).bind fun n => if n < 2 ^ 63 then some (n : Int) else none

/-- A number is stored into an `int` field when `strconv.ParseInt` accepts its
text; otherwise the mismatch quotes the text. -/
def storeInt {α : Type} (struct field : String) (v : JSON) (put : Int → α) (keep : α) :
    Store α :=
  match v with
  | .null => .set keep
  | .number lit =>
      match parseInt lit with
      | some n => .set (put n)
      | none => .mismatch (.unmarshalType ("number " ++ lit) "int" struct field)
  | v => .mismatch (.unmarshalType v.kind "int" struct field)

/-- A `time.Time`, as nanoseconds since its zero value (January 1, year 1, UTC). -/
abbrev Time := Int

/-- Go `time.Time.UnmarshalJSON`: `null` is a no-op, a string is parsed as
RFC 3339 by `parse`, anything else is not a JSON string. -/
def storeTime {α : Type} (parse : String → Except LibError Time) (v : JSON) (put : Time → α)
    (keep : α) : Store α :=
  match v with
  | .null => .set keep
  | .string s =>
      match parse s with
      | .ok t => .set (put t)
      | .error e => .abort e
  | _ => .abort (.other "Time.UnmarshalJSON: input is not a JSON string")

/-- Decoding the members of an object, in order, into a struct value `a`;
`saved` is the first recorded mismatch. -/
def decodeObject {α : Type} (fields : List String) (store : α → String → JSON → Store α) :
    α → Option LibError → List (String × JSON) → Except LibError α
  | a, none, [] => .ok a
  | _, some e, [] => .error e
  | a, saved, (k, v) :: rest =>
      match findField fields k with
      | none => decodeObject fields store a saved rest
      | some f =>
          match store a f v with
          | .set a' => decodeObject fields store a' saved rest
          | .mismatch e => decodeObject fields store a (saved.orElse fun _ => some e) rest
          | .abort e => .error e

/-- Go `json.Unmarshal(bytes, &x)` for a struct `x` holding `init`. -/
def unmarshalStruct {α : Type} (goType : String) (fields : List String)
    (store : α → String → JSON → Store α) (init : α) (data : JSON) : Except LibError α :=
  match data with
  | .object kvs => decodeObject fields store init none (sortKeys kvs)
  | .null => .ok init
  | v => .error (.unmarshalType v.kind goType "" "")

/-! ## Data model (kirimi.go 34-135) -/

/-- Go `Client`: the base URL and the timeout of its `http.Client`, in
nanoseconds.  What the `http.Client` does with a request is `Runtime.Do`. -/
structure Client where
  BaseURL : String
  Timeout : Int

def second : Int := 1000000000

def NewClient : Client := { BaseURL := DefaultBaseURL, Timeout := 30 * second }

def NewClientWithBaseURL (baseURL : String) : Client :=
  { BaseURL := baseURL, Timeout := 30 * second }

def Client.SetTimeout (c : Client) (timeout : Int) : Client :=
  { c with Timeout := timeout }

/-- Go `Response`: the standard API response format (the envelope). -/
structure Response where
  Success : Bool
  Data : JSON
  Message : String

structure GenerateOTPRequest where
  UserCode : String
  DeviceID : String
  Phone : String
  Secret : String

structure GenerateOTPResponse where
  Phone : String
  Message : String
  ExpiresIn : String
  deriving DecidableEq, Repr

structure ValidateOTPRequest where
  UserCode : String
  DeviceID : String
  Phone : String
  OTP : String
  Secret : String

structure ValidateOTPResponse where
  Phone : String
  Verified : Bool
  VerifiedAt : Time
  deriving DecidableEq, Repr

structure SendMessageRequest where
  UserCode : String
  DeviceID : String
  Receiver : String
  Message : String
  Secret : String
  MediaURL : String

structure SendMessageResponse where
  MessageLength : Int
  MediaURL : String
  HasMedia : Bool
  deriving DecidableEq, Repr

structure HealthCheckResponse where
  Status : String
  Message : String
  deriving DecidableEq, Repr

/-- The zero value of each response struct (`var x T`). -/
def GenerateOTPResponse.zero : GenerateOTPResponse := ⟨"", "", ""⟩
def ValidateOTPResponse.zero : ValidateOTPResponse := ⟨"", false, 0⟩
def SendMessageResponse.zero : SendMessageResponse := ⟨0, "", false⟩
def HealthCheckResponse.zero : HealthCheckResponse := ⟨"", ""⟩

structure APIError where
  StatusCode : Int
  Message : String
  Response : Response

/-- The error values the package returns. -/
inductive KError where
  /-- Go `fmt.Errorf` without `%w`: the formatted text. -/
  | plain (msg : String)
  /-- Go `fmt.Errorf("<msg>%w", cause)`: the text before the wrapped error, and
  the wrapped library error. -/
  | wrap (msg : String) (cause : LibError)
  /-- Go `&APIError{...}`. -/
  | api (e : APIError)

def APIError.Error (e : APIError) : String :=
  "API Error " ++ toString e.StatusCode ++ ": " ++ e.Message

def KError.Error : KError → String
  | .plain msg => msg
  | .wrap msg cause => msg ++ cause.text
  | .api e => e.Error

/-- A Go result pair `(*T, error)`, by the three shapes the return statements
of this package have. -/
inductive Result (α : Type) where
  /-- Go `return nil, err`. -/
  | failure (err : KError)
  /-- Go `return &val, err`. -/
  | withError (val : α) (err : KError)
  /-- Go `return &val, nil`. -/
  | success (val : α)

/-- The first component of the pair: `none` is the nil pointer. -/
def Result.resp {α : Type} : Result α → Option α
  | .failure _ => none
  | .withError val _ => some val
  | .success val => some val

/-- The second component of the pair: `none` is the nil error. -/
def Result.err {α : Type} : Result α → Option KError
  | .failure err => some err
  | .withError _ err => some err
  | .success _ => none

/-! ## The HTTP exchange -/

abbrev Bytes := List UInt8

/-- The request handed to `HTTPClient.Do`.  A body is the JSON value whose
encoding is sent. -/
structure HTTPRequest where
  Method : String
  /-- The URL the request carries, as `net/url` writes it (`req.URL.String()`). -/
  URL : String
  Body : Option JSON
  /-- The `Content-Type` header, when set. -/
  ContentTypeHeader : Option String

/-- The `*http.Response` of `Do`: the status code and what `io.ReadAll` of the
body gives. -/
structure HTTPResponse where
  StatusCode : Int
  Body : Except LibError Bytes

/-- The standard library and the network, as far as the client calls them. -/
structure Runtime where
  /-- Go `http.NewRequest(method, url, _)`: its error, `none` when the request is
  built. -/
  newRequest : String → String → Option LibError
  /-- The URL of the request `http.NewRequest` builds from a URL string:
  `net/url` parses the string and writes it back (`req.URL.String()`), which
  can change it (a space in the path is written `%20`, the scheme is
  lower-cased). -/
  requestURL : String → String
  /-- Go `c.HTTPClient.Do(req)`. -/
  Do : HTTPRequest → Except LibError HTTPResponse
  /-- Go `json.Unmarshal(respBody, &apiResp)` for `apiResp` of type `Response`. -/
  unmarshalResponse : Bytes → Except LibError Response
  /-- RFC 3339 parsing of `time.Time.UnmarshalJSON`. -/
  parseTime : String → Except LibError Time

/-- What an operation returns, with the requests it handed to `Do`, in order. -/
structure Out (α : Type) where
  result : Result α
  sent : List HTTPRequest

/-! ## Request bodies: `json.Marshal` of the request structs -/

def marshalGenerateOTPRequest (req : GenerateOTPRequest) : Except LibError JSON :=
  .ok (.object [("user_code", .string req.UserCode), ("device_id", .string req.DeviceID),
    ("phone", .string req.Phone), ("secret", .string req.Secret)])

def marshalValidateOTPRequest (req : ValidateOTPRequest) : Except LibError JSON :=
  .ok (.object [("user_code", .string req.UserCode), ("device_id", .string req.DeviceID),
    ("phone", .string req.Phone), ("otp", .string req.OTP), ("secret", .string req.Secret)])

/-- The field `media_url` is `omitempty`. -/
def marshalSendMessageRequest (req : SendMessageRequest) : Except LibError JSON :=
  .ok (.object ([("user_code", .string req.UserCode), ("device_id", .string req.DeviceID),
    ("receiver", .string req.Receiver), ("message", .string req.Message),
    ("secret", .string req.Secret)] ++
    (if req.MediaURL = "" then [] else [("media_url", .string req.MediaURL)])))

/-! ## Response bodies: `json.Unmarshal` into the response structs -/

def unmarshalGenerateOTPResponse (init : GenerateOTPResponse) (data : JSON) :
    Except LibError GenerateOTPResponse :=
  unmarshalStruct "kirimi.GenerateOTPResponse" ["phone", "message", "expires_in"]
    (fun a f v =>
      if f = "phone" then storeString "GenerateOTPResponse" f v (fun s => { a with Phone := s }) a
      else if f = "message" then
        storeString "GenerateOTPResponse" f v (fun s => { a with Message := s }) a
      else storeString "GenerateOTPResponse" f v (fun s => { a with ExpiresIn := s }) a)
    init data

def unmarshalValidateOTPResponse (rt : Runtime) (init : ValidateOTPResponse) (data : JSON) :
    Except LibError ValidateOTPResponse :=
  unmarshalStruct "kirimi.ValidateOTPResponse" ["phone", "verified", "verified_at"]
    (fun a f v =>
      if f = "phone" then storeString "ValidateOTPResponse" f v (fun s => { a with Phone := s }) a
      else if f = "verified" then
        storeBool "ValidateOTPResponse" f v (fun b => { a with Verified := b }) a
      else storeTime rt.parseTime v (fun t => { a with VerifiedAt := t }) a)
    init data

def unmarshalSendMessageResponse (init : SendMessageResponse) (data : JSON) :
    Except LibError SendMessageResponse :=
  unmarshalStruct "kirimi.SendMessageResponse" ["message_length", "media_url", "has_media"]
    (fun a f v =>
      if f = "message_length" then
        storeInt "SendMessageResponse" f v (fun n => { a with MessageLength := n }) a
      else if f = "media_url" then
        storeString "SendMessageResponse" f v (fun s => { a with MediaURL := s }) a
      else storeBool "SendMessageResponse" f v (fun b => { a with HasMedia := b }) a)
    init data

def unmarshalHealthCheckResponse (init : HealthCheckResponse) (data : JSON) :
    Except LibError HealthCheckResponse :=
  unmarshalStruct "kirimi.HealthCheckResponse" ["status", "message"]
    (fun a f v =>
      if f = "status" then storeString "HealthCheckResponse" f v (fun s => { a with Status := s }) a
      else storeString "HealthCheckResponse" f v (fun s => { a with Message := s }) a)
    init data

/-! ## Transport (kirimi.go 137-213) -/

/-- Length `len(s)` of a Go string: its length in bytes. -/
def len (s : String) : Int := (s.utf8ByteSize : Int)

/-- The request `makeRequest` hands to `Do`: `http.NewRequest(method, url,
reqBody)` with the marshalled body when there is one, then
`req.Header.Set("Content-Type", ContentType)`.  An empty method means GET, and
the request carries the URL that `net/url` parsed from `url`. -/
def postRequest (rt : Runtime) (method url : String) (body : Option (Except LibError JSON)) :
    HTTPRequest :=
  { Method := if method = "" then "GET" else method, URL := rt.requestURL url,
    Body := body.bind fun b => match b with
      | .ok jsonBody => some jsonBody
      | .error _ => none,
    ContentTypeHeader := some ContentType }

/-- The request `makeGetRequest` hands to `Do`: `http.NewRequest("GET", url, nil)`,
carrying the URL that `net/url` parsed from `url`. -/
def getRequest (rt : Runtime) (url : String) : HTTPRequest :=
  { Method := "GET", URL := rt.requestURL url, Body := none, ContentTypeHeader := none }

/-- Go `makeRequest` makes an HTTP request to the API.  `body` is `none` for a
nil body, else the outcome of `json.Marshal(body)`. -/
def makeRequest (c : Client) (rt : Runtime) (method endpoint : String)
    (body : Option (Except LibError JSON)) : Out Response :=
  let url := c.BaseURL ++ "/" ++ APIVersion ++ "/" ++ endpoint
  match body with
  | some (.error err) => ⟨.failure (.wrap "failed to marshal request body: " err), []⟩
  | reqBody =>
    match rt.newRequest method url with
    | some err => ⟨.failure (.wrap "failed to create request: " err), []⟩
    | none =>
      let req := postRequest rt method url reqBody
      match rt.Do req with
      | .error err => ⟨.failure (.wrap "failed to make request: " err), [req]⟩
      | .ok resp =>
        match resp.Body with
        | .error err => ⟨.failure (.wrap "failed to read response body: " err), [req]⟩
        | .ok respBody =>
          match rt.unmarshalResponse respBody with
          | .error err => ⟨.failure (.wrap "failed to unmarshal response: " err), [req]⟩
          | .ok apiResp =>
            if resp.StatusCode ≥ 400 then
              ⟨.withError apiResp (.api
                { StatusCode := resp.StatusCode, Message := apiResp.Message,
                  Response := apiResp }), [req]⟩
            else ⟨.success apiResp, [req]⟩

/-- Go `makeGetRequest` makes a GET request (for health check). -/
def makeGetRequest (c : Client) (rt : Runtime) (endpoint : String) : Out Response :=
  let url := if endpoint ≠ "" then c.BaseURL ++ "/" ++ endpoint else c.BaseURL
  match rt.newRequest "GET" url with
  | some err => ⟨.failure (.wrap "failed to create request: " err), []⟩
  | none =>
    let req := getRequest rt url
    match rt.Do req with
    | .error err => ⟨.failure (.wrap "failed to make request: " err), [req]⟩
    | .ok resp =>
      match resp.Body with
      | .error err => ⟨.failure (.wrap "failed to read response body: " err), [req]⟩
      | .ok respBody =>
        match rt.unmarshalResponse respBody with
        | .error err => ⟨.failure (.wrap "failed to unmarshal response: " err), [req]⟩
        | .ok apiResp => ⟨.success apiResp, [req]⟩

/-! ## Endpoint operations (kirimi.go 215-307) -/

/-- The part of an operation after the transport returned without error:
`var x T; if resp.Data != nil { Marshal; Unmarshal }`, with the texts of the
two wrapped errors. -/
def decodeData {α : Type} (unmarshalMsg : String) (unmarshal : α → JSON → Except LibError α)
    (zero : α) (resp : Response) : Except KError α :=
  match resp.Data with
  | .null => .ok zero
  | data =>
    match jsonMarshal data with
    | .error err => .error (.wrap "failed to marshal response data: " err)
    | .ok dataBytes =>
      match unmarshal zero dataBytes with
      | .error err => .error (.wrap unmarshalMsg err)
      | .ok x => .ok x

/-- Go `if err != nil { return nil, err }` after a transport call, then the
decoding of `resp.Data`. -/
def afterTransport {α : Type} (r : Out Response) (decode : Response → Except KError α) :
    Out α :=
  match r.result with
  | .failure err => ⟨.failure err, r.sent⟩
  | .withError _ err => ⟨.failure err, r.sent⟩
  | .success resp =>
    match decode resp with
    | .error err => ⟨.failure err, r.sent⟩
    | .ok x => ⟨.success x, r.sent⟩

/-- Go `GenerateOTP` generates an OTP and sends it to the phone number. -/
def GenerateOTP (c : Client) (rt : Runtime) (req : GenerateOTPRequest) :
    Out GenerateOTPResponse :=
  afterTransport (makeRequest c rt "POST" "generate-otp" (some (marshalGenerateOTPRequest req)))
    (decodeData "failed to unmarshal OTP response: " unmarshalGenerateOTPResponse
      GenerateOTPResponse.zero)

/-- Go `ValidateOTP` validates the provided OTP. -/
def ValidateOTP (c : Client) (rt : Runtime) (req : ValidateOTPRequest) :
    Out ValidateOTPResponse :=
  afterTransport (makeRequest c rt "POST" "validate-otp" (some (marshalValidateOTPRequest req)))
    (decodeData "failed to unmarshal validate response: " (unmarshalValidateOTPResponse rt)
      ValidateOTPResponse.zero)

/-- The error of the length validation of `SendMessage`. -/
def messageTooLong : KError :=
  .plain ("message length exceeds maximum of " ++ toString MaxMessageLength ++ " characters")

/-- Go `SendMessage` sends a WhatsApp message with optional media. -/
def SendMessage (c : Client) (rt : Runtime) (req : SendMessageRequest) :
    Out SendMessageResponse :=
  if len req.Message > MaxMessageLength then ⟨.failure messageTooLong, []⟩
  else
    afterTransport (makeRequest c rt "POST" "send-message" (some (marshalSendMessageRequest req)))
      (decodeData "failed to unmarshal message response: " unmarshalSendMessageResponse
        SendMessageResponse.zero)

/-- The last step of `HealthCheck`: when both decoded fields are empty, the
message of the envelope is used. -/
def healthFallback (resp : Response) (healthResp : HealthCheckResponse) : HealthCheckResponse :=
  if healthResp.Status = "" ∧ healthResp.Message = "" then
    { healthResp with Message := resp.Message }
  else healthResp

/-- Go `HealthCheck` checks the API health status. -/
def HealthCheck (c : Client) (rt : Runtime) : Out HealthCheckResponse :=
  afterTransport (makeGetRequest c rt "")
    (fun resp =>
      match decodeData "failed to unmarshal health response: " unmarshalHealthCheckResponse
          HealthCheckResponse.zero resp with
      | .error err => .error err
      | .ok healthResp => .ok (healthFallback resp healthResp))

/-! ## A test server (kirimi_test.go 11-18) -/

/-- The body a test server writes for an envelope; only `unmarshalResponse`
of the same runtime reads it. -/
def mockBody : Bytes := []

/-- The runes of a URL string with every space written as `%20`. -/
def escapeSpaceRunes : List Char → List Char
  | [] => []
  | ch :: rest =>
      if ch = ' ' then '%' :: '2' :: '0' :: escapeSpaceRunes rest else ch :: escapeSpaceRunes rest

/-- How `net/url` writes back a URL string that it accepts and in which the
space is the only rune it escapes (lower-case scheme, plain host, no query):
every space of the path becomes `%20`, the rest is unchanged.  The test
servers below are only asked for such URLs. -/
def escapeSpaces (raw : String) : String := String.mk (escapeSpaceRunes raw.data)

/-- Go `createTestServer(statusCode, response)`: every request is answered with
`statusCode` and the encoding of `response`, which the client decodes to
`response` again. -/
def createTestServer (statusCode : Int) (response : Response) : Runtime :=
  { newRequest := fun _ _ => none
    requestURL := escapeSpaces
    Do := fun _ => .ok { StatusCode := statusCode, Body := .ok mockBody }
    unmarshalResponse := fun _ => .ok response
    parseTime := fun s => .error (.other ("parsing time " ++ s)) }

/-- The error was made by `fmt.Errorf` without a wrapped error. -/
def KError.isPlain : KError → Bool
  | .plain _ => true
  | _ => false

/-- The error is an `*APIError`. -/
def KError.isAPI : KError → Bool
  | .api _ => true
  | _ => false

/-- The server answers request `r` with HTTP status `status` and a body that
is read in full and decodes to the envelope `e`. -/
def Replies (rt : Runtime) (r : HTTPRequest) (status : Int) (e : Response) : Prop :=
  ∃ resp respBody, rt.Do r = .ok resp ∧ resp.StatusCode = status ∧ resp.Body = .ok respBody ∧
    rt.unmarshalResponse respBody = .ok e

/-- The body, if any, was marshalled without error. -/
def marshalled (body : Option (Except LibError JSON)) : Bool :=
  match body with
  | some (.error _) => false
  | _ => true

/-- The URL of a GET: the base URL, followed by `/` and the endpoint when the
endpoint is not empty. -/
def getURL (c : Client) (endpoint : String) : String :=
  if endpoint ≠ "" then c.BaseURL ++ "/" ++ endpoint else c.BaseURL

/-- The URL of a POST operation. -/
def postURL (c : Client) (endpoint : String) : String :=
  c.BaseURL ++ "/" ++ "v1" ++ "/" ++ endpoint

/-! ## Package tiers -/

/-- The declared identifiers, in declaration order. -/
def packageIDs : List Int := packageTypes.map Prod.snd

/-- The declared names that belong to a tier: `Package<tier>` followed by
anything. -/
def tierNames (tier : String) : List String :=
  (packageTypes.map Prod.fst).filter fun name => ("Package" ++ tier).data.isPrefixOf name.data

/-- A message of 401 euro signs (U+20AC, three bytes each in UTF-8). -/
def euroMessage : String := String.mk (List.replicate 401 (Char.ofNat 0x20AC))

/-- C7: for every integer `packageID`, `IsBasicOrProPackage` is true exactly
for the six identifiers Basic1, Pro1, Basic2, Pro2, Basic3, Pro3, that is for
3, 4, 7, 8, 10 and 11; it is false for Free, Lite1, Lite2 and Lite3 and for
every identifier that is not declared. -/
theorem isBasicOrProPackage_iff (packageID : Int) :
    (IsBasicOrProPackage packageID = true ↔
      packageID = PackageBasic1 ∨ packageID = PackagePro1 ∨ packageID = PackageBasic2 ∨
        packageID = PackagePro2 ∨ packageID = PackageBasic3 ∨ packageID = PackagePro3) ∧
    (IsBasicOrProPackage packageID = true ↔ packageID ∈ ([3, 4, 7, 8, 10, 11] : List Int)) ∧
    IsBasicOrProPackage PackageFree = false ∧ IsBasicOrProPackage PackageLite1 = false ∧
    IsBasicOrProPackage PackageLite2 = false ∧ IsBasicOrProPackage PackageLite3 = false ∧
    (packageID ∉ packageIDs → IsBasicOrProPackage packageID = false) := by
  refine ⟨?_, ?_, by decide, by decide, by decide, by decide, ?_⟩
  · simp [IsBasicOrProPackage, or_assoc]
  · simp [IsBasicOrProPackage, PackageBasic1, PackagePro1, PackageBasic2, PackagePro2,
      PackageBasic3, PackagePro3, or_assoc]
  · intro h
    simp [packageIDs, packageTypes] at h
    simp [IsBasicOrProPackage, h]

/-- C7, on inputs: an undeclared identifier (5) and a declared one (10). -/
theorem isBasicOrProPackage_iff_witness :
    IsBasicOrProPackage 5 = false ∧ IsBasicOrProPackage 10 = true :=
  ⟨(isBasicOrProPackage_iff 5).2.2.2.2.2.2 (by decide),
   (isBasicOrProPackage_iff 10).2.1.2 (by decide)⟩

/-- C8: for every integer `packageID`, `IsMediaSupportedPackage` is false
exactly when `packageID` is `PackageFree` (1), which is exactly when
`IsFreePackage` is true: each predicate is the negation of the other. -/
theorem isMediaSupportedPackage_complement (packageID : Int) :
    (IsMediaSupportedPackage packageID = false ↔ packageID = PackageFree) ∧
    (packageID = PackageFree ↔ IsFreePackage packageID = true) ∧
    PackageFree = 1 ∧
    IsMediaSupportedPackage packageID = !IsFreePackage packageID ∧
    IsFreePackage packageID = !IsMediaSupportedPackage packageID := by
  refine ⟨?_, ?_, rfl, ?_, ?_⟩ <;> simp [IsMediaSupportedPackage, IsFreePackage, bne]

/-- C9, as stated, fails: the const block declares ten identifiers, not
eleven. -/
theorem packageTypes_not_eleven : packageTypes.length = 10 ∧ packageTypes.length ≠ 11 := by
  decide

/-- C9, amended: the const block declares ten identifiers with pairwise
distinct names and pairwise distinct values, all between 1 and 11 (5 is not
used); exactly one is Free, three are Lite, three are Basic and three are Pro,
one Basic and one Pro for each of the generations 1, 2 and 3. -/
theorem packageTypes_enumeration :
    packageTypes.length = 10 ∧ packageIDs.Nodup ∧ (packageTypes.map Prod.fst).Nodup ∧
    (∀ id ∈ packageIDs, 1 ≤ id ∧ id ≤ 11) ∧ (5 : Int) ∉ packageIDs ∧
    tierNames "Free" = ["PackageFree"] ∧
    tierNames "Lite" = ["PackageLite1", "PackageLite2", "PackageLite3"] ∧
    tierNames "Basic" = ["PackageBasic1", "PackageBasic2", "PackageBasic3"] ∧
    tierNames "Pro" = ["PackagePro1", "PackagePro2", "PackagePro3"] ∧
    ([IsFreePackage PackageFree, IsBasicOrProPackage PackageBasic1,
      IsBasicOrProPackage PackageBasic2, IsBasicOrProPackage PackageBasic3,
      IsBasicOrProPackage PackagePro1, IsBasicOrProPackage PackagePro2,
      IsBasicOrProPackage PackagePro3].all id = true) := by
  refine ⟨by decide, by decide, by decide, by decide, by decide, ?_, ?_, ?_, ?_, by decide⟩ <;>
    decide

/-! ## Transport lemmas -/

theorem afterTransport_sent {α : Type} (r : Out Response) (decode : Response → Except KError α) :
    (afterTransport r decode).sent = r.sent := by
  unfold afterTransport
  split <;> try rfl
  split <;> rfl

theorem makeRequest_sent (c : Client) (rt : Runtime) (method endpoint : String)
    (body : Option (Except LibError JSON)) :
    (makeRequest c rt method endpoint body).sent =
      if marshalled body = true ∧ rt.newRequest method (postURL c endpoint) = none
      then [postRequest rt method (postURL c endpoint) body] else [] := by
  unfold makeRequest postURL APIVersion
  split
  · simp [marshalled]
  · rename_i hb
    have hb2 : marshalled body = true := by
      unfold marshalled
      split
      · rename_i err; exact absurd rfl (hb err)
      · rfl
    simp only [hb2, true_and]
    split
    · rename_i h; simp [h]
    · rename_i h
      simp only [h, if_true]
      split <;> try rfl
      split <;> try rfl
      split <;> try rfl
      split <;> rfl

theorem makeGetRequest_sent (c : Client) (rt : Runtime) (endpoint : String) :
    (makeGetRequest c rt endpoint).sent =
      if rt.newRequest "GET" (getURL c endpoint) = none then [getRequest rt (getURL c endpoint)]
      else [] := by
  unfold makeGetRequest getURL
  generalize (if endpoint ≠ "" then c.BaseURL ++ "/" ++ endpoint else c.BaseURL) = url
  dsimp only
  split
  · rename_i h; simp [h]
  · rename_i h
    simp only [h, if_true]
    split <;> try rfl
    split <;> try rfl
    split <;> rfl

/-- What `makeRequest` returns once the request is built and answered. -/
theorem makeRequest_of_replies (c : Client) (rt : Runtime) (method endpoint : String)
    (body : Option (Except LibError JSON)) (status : Int) (e : Response)
    (hbody : marshalled body = true)
    (hnew : rt.newRequest method (postURL c endpoint) = none)
    (hrep : Replies rt (postRequest rt method (postURL c endpoint) body) status e) :
    (makeRequest c rt method endpoint body).result =
      if status ≥ 400 then
        .withError e (.api { StatusCode := status, Message := e.Message, Response := e })
      else .success e := by
  obtain ⟨resp, respBody, hdo, hst, hread, hdec⟩ := hrep
  unfold postURL at hnew hdo
  unfold makeRequest APIVersion
  split
  · simp [marshalled] at hbody
  · simp only [hnew, hdo, hread, hdec, hst]
    split <;> rfl

/-- What `makeGetRequest` returns once the request is built and answered:
the envelope, whatever the status. -/
theorem makeGetRequest_of_replies (c : Client) (rt : Runtime) (status : Int) (e : Response)
    (hnew : rt.newRequest "GET" c.BaseURL = none)
    (hrep : Replies rt (getRequest rt c.BaseURL) status e) :
    (makeGetRequest c rt "").result = .success e := by
  obtain ⟨resp, respBody, hdo, _, hread, hdec⟩ := hrep
  unfold makeGetRequest
  simp only [ne_eq, not_true_eq_false, if_false, hnew, hdo, hread, hdec]

theorem replies_createTestServer (statusCode : Int) (response : Response) (r : HTTPRequest) :
    Replies (createTestServer statusCode response) r statusCode response :=
  ⟨{ StatusCode := statusCode, Body := .ok mockBody }, mockBody, rfl, rfl, rfl, rfl⟩

/-! ## C2: the status mapping of `makeRequest` -/

/-- C2: when the request is built and the HTTP response has status `status`
and a body that decodes to the envelope `e`, `makeRequest` returns the pair
`(e, APIError{StatusCode: status, Message: e.Message, Response: e})` if
`status >= 400` and the pair `(e, nil)` if `status < 400`. -/
theorem makeRequest_status_mapping (c : Client) (rt : Runtime) (method endpoint : String)
    (body : Option (Except LibError JSON)) (status : Int) (e : Response)
    (hbody : marshalled body = true)
    (hnew : rt.newRequest method (c.BaseURL ++ "/" ++ "v1" ++ "/" ++ endpoint) = none)
    (hrep : Replies rt (postRequest rt method (c.BaseURL ++ "/" ++ "v1" ++ "/" ++ endpoint) body)
      status e) :
    (status ≥ 400 →
      (makeRequest c rt method endpoint body).result =
        .withError e (.api { StatusCode := status, Message := e.Message, Response := e })) ∧
    (status < 400 → (makeRequest c rt method endpoint body).result = .success e) ∧
    (makeRequest c rt method endpoint body).result.resp = some e := by
  have h := makeRequest_of_replies c rt method endpoint body status e hbody hnew hrep
  refine ⟨fun hs => ?_, fun hs => ?_, ?_⟩
  · rw [h, if_pos hs]
  · rw [h, if_neg (not_le.mpr hs)]
  · rw [h]; split <;> rfl

/-- C2 at status 399 (no error) and at status 400 (an `APIError` with the
message of the envelope), against a test server. -/
theorem makeRequest_status_mapping_witness :
    (makeRequest NewClient (createTestServer 399 ⟨false, .object [], "bad params"⟩) "POST"
        "generate-otp" none).result.err = none ∧
    (makeRequest NewClient (createTestServer 400 ⟨false, .object [], "bad params"⟩) "POST"
        "generate-otp" none).result.err =
      some (.api ⟨400, "bad params", ⟨false, .object [], "bad params"⟩⟩) :=
  ⟨by
    rw [(makeRequest_status_mapping NewClient (createTestServer 399 ⟨false, .object [], "bad params"⟩)
      "POST" "generate-otp" none 399 ⟨false, .object [], "bad params"⟩ rfl rfl
      (replies_createTestServer _ _ _)).2.1 (by decide)]
    rfl,
   by
    rw [(makeRequest_status_mapping NewClient (createTestServer 400 ⟨false, .object [], "bad params"⟩)
      "POST" "generate-otp" none 400 ⟨false, .object [], "bad params"⟩ rfl rfl
      (replies_createTestServer _ _ _)).1 (by decide)]
    rfl⟩

/-! ## C10: request URLs -/

/-- C10, as stated, fails: with the base URL `http://h/a b` the request
`GenerateOTP` hands to the HTTP client asks for
`http://h/a%20b/v1/generate-otp` and the one of `HealthCheck` for
`http://h/a%20b`, neither of which is the base URL followed by the segments:
`net/url` writes the space of the base URL as `%20`. -/
theorem request_url_reencoded :
    (GenerateOTP (NewClientWithBaseURL "http://h/a b")
        (createTestServer 200 ⟨true, .null, "ok"⟩) ⟨"u", "d", "p", "s"⟩).sent.map HTTPRequest.URL =
      ["http://h/a%20b/v1/generate-otp"] ∧
    (GenerateOTP (NewClientWithBaseURL "http://h/a b")
        (createTestServer 200 ⟨true, .null, "ok"⟩) ⟨"u", "d", "p", "s"⟩).sent.map HTTPRequest.URL ≠
      ["http://h/a b" ++ "/" ++ "v1" ++ "/" ++ "generate-otp"] ∧
    (HealthCheck (NewClientWithBaseURL "http://h/a b")
        (createTestServer 200 ⟨true, .null, "ok"⟩)).sent.map HTTPRequest.URL =
      ["http://h/a%20b"] ∧
    (HealthCheck (NewClientWithBaseURL "http://h/a b")
        (createTestServer 200 ⟨true, .null, "ok"⟩)).sent.map HTTPRequest.URL ≠
      ["http://h/a b"] := by
  refine ⟨by decide, by decide, by decide, by decide⟩

/-- C10, amended: the URL string a POST through `makeRequest` gives to
`http.NewRequest` is exactly `BaseURL + "/" + "v1" + "/" + endpoint`, with
`generate-otp`, `validate-otp` and `send-message` for the three POST
operations; `makeGetRequest` gives it exactly `BaseURL` when the endpoint is
empty and `BaseURL + "/" + endpoint` otherwise; `HealthCheck` gives it exactly
`BaseURL`.  Each operation hands at most one request to the HTTP client, and
exactly one when `http.NewRequest` accepts that string (and, for
`SendMessage`, the message passes validation); that request carries the URL
`net/url` parsed from exactly that string. -/
theorem request_urls (c : Client) (rt : Runtime) :
    (∀ (method endpoint : String) (jsonBody : JSON),
      (makeRequest c rt method endpoint (some (.ok jsonBody))).sent.map HTTPRequest.URL =
        if rt.newRequest method (c.BaseURL ++ "/" ++ "v1" ++ "/" ++ endpoint) = none
        then [rt.requestURL (c.BaseURL ++ "/" ++ "v1" ++ "/" ++ endpoint)] else []) ∧
    (∀ req : GenerateOTPRequest,
      (GenerateOTP c rt req).sent.map HTTPRequest.URL =
        if rt.newRequest "POST" (c.BaseURL ++ "/" ++ "v1" ++ "/" ++ "generate-otp") = none
        then [rt.requestURL (c.BaseURL ++ "/" ++ "v1" ++ "/" ++ "generate-otp")] else []) ∧
    (∀ req : ValidateOTPRequest,
      (ValidateOTP c rt req).sent.map HTTPRequest.URL =
        if rt.newRequest "POST" (c.BaseURL ++ "/" ++ "v1" ++ "/" ++ "validate-otp") = none
        then [rt.requestURL (c.BaseURL ++ "/" ++ "v1" ++ "/" ++ "validate-otp")] else []) ∧
    (∀ req : SendMessageRequest,
      (SendMessage c rt req).sent.map HTTPRequest.URL =
        if len req.Message ≤ 1200 ∧
          rt.newRequest "POST" (c.BaseURL ++ "/" ++ "v1" ++ "/" ++ "send-message") = none
        then [rt.requestURL (c.BaseURL ++ "/" ++ "v1" ++ "/" ++ "send-message")] else []) ∧
    (∀ endpoint : String,
      (makeGetRequest c rt endpoint).sent.map HTTPRequest.URL =
        if rt.newRequest "GET"
          (if endpoint = "" then c.BaseURL else c.BaseURL ++ "/" ++ endpoint) = none
        then [rt.requestURL (if endpoint = "" then c.BaseURL else c.BaseURL ++ "/" ++ endpoint)]
        else []) ∧
    ((HealthCheck c rt).sent.map HTTPRequest.URL =
        if rt.newRequest "GET" c.BaseURL = none then [rt.requestURL c.BaseURL] else []) := by
  refine ⟨?_, ?_, ?_, ?_, ?_, ?_⟩
  · intro method endpoint jsonBody
    rw [makeRequest_sent]
    simp only [marshalled, true_and, postURL]
    split <;> rfl
  · intro req
    rw [GenerateOTP, afterTransport_sent, makeRequest_sent]
    simp only [marshalled, marshalGenerateOTPRequest, true_and, postURL]
    split <;> rfl
  · intro req
    rw [ValidateOTP, afterTransport_sent, makeRequest_sent]
    simp only [marshalled, marshalValidateOTPRequest, true_and, postURL]
    split <;> rfl
  · intro req
    unfold SendMessage
    by_cases h : len req.Message > MaxMessageLength
    · have h2 : ¬ len req.Message ≤ 1200 := by
        simpa [MaxMessageLength] using h
      simp [h, h2]
    · have h2 : len req.Message ≤ 1200 := by
        simpa [MaxMessageLength] using h
      rw [if_neg h, afterTransport_sent, makeRequest_sent]
      simp only [marshalled, marshalSendMessageRequest, true_and, postURL, h2]
      split <;> rfl
  · intro endpoint
    rw [makeGetRequest_sent]
    unfold getURL
    by_cases h : endpoint = ""
    · simp only [h, ne_eq, not_true_eq_false, if_false, if_true]
      split <;> rfl
    · simp only [h, ne_eq, not_false_eq_true, if_false, if_true]
      split <;> rfl
  · rw [HealthCheck, afterTransport_sent, makeGetRequest_sent]
    unfold getURL
    simp only [ne_eq, not_true_eq_false, if_false]
    split <;> rfl

/-- C10, amended, against a test server at `https://custom.api.com`, whose URL
strings `net/url` writes back unchanged. -/
theorem request_urls_witness :
    (GenerateOTP (NewClientWithBaseURL "https://custom.api.com")
        (createTestServer 200 ⟨true, .null, "ok"⟩) ⟨"u", "d", "p", "s"⟩).sent.map HTTPRequest.URL =
      ["https://custom.api.com/v1/generate-otp"] ∧
    (HealthCheck (NewClientWithBaseURL "https://custom.api.com")
        (createTestServer 200 ⟨true, .null, "ok"⟩)).sent.map HTTPRequest.URL =
      ["https://custom.api.com"] :=
  ⟨by
    rw [(request_urls (NewClientWithBaseURL "https://custom.api.com")
      (createTestServer 200 ⟨true, .null, "ok"⟩)).2.1 ⟨"u", "d", "p", "s"⟩]
    decide,
   by
    rw [(request_urls (NewClientWithBaseURL "https://custom.api.com")
      (createTestServer 200 ⟨true, .null, "ok"⟩)).2.2.2.2.2]
    decide⟩

/-! ## C1: the length validation of `SendMessage` -/

theorem makeRequest_err_not_plain (c : Client) (rt : Runtime) (method endpoint : String)
    (body : Option (Except LibError JSON)) (err : KError)
    (h : (makeRequest c rt method endpoint body).result.err = some err) : err.isPlain = false := by
  unfold makeRequest at h
  dsimp only at h
  split at h
  · simp only [Result.err, Option.some.injEq] at h; subst h; rfl
  · split at h
    · simp only [Result.err, Option.some.injEq] at h; subst h; rfl
    · split at h
      · simp only [Result.err, Option.some.injEq] at h; subst h; rfl
      · split at h
        · simp only [Result.err, Option.some.injEq] at h; subst h; rfl
        · split at h
          · simp only [Result.err, Option.some.injEq] at h; subst h; rfl
          · split at h
            · simp only [Result.err, Option.some.injEq] at h; subst h; rfl
            · simp [Result.err] at h

theorem decodeData_err_not_plain {α : Type} (unmarshalMsg : String)
    (unmarshal : α → JSON → Except LibError α) (zero : α) (resp : Response) (err : KError)
    (h : decodeData unmarshalMsg unmarshal zero resp = .error err) : err.isPlain = false := by
  unfold decodeData at h
  split at h
  · simp at h
  · split at h
    · simp only [Except.error.injEq] at h; subst h; rfl
    · split at h
      · simp only [Except.error.injEq] at h; subst h; rfl
      · simp at h

theorem afterTransport_err_not_plain {α : Type} (r : Out Response)
    (decode : Response → Except KError α)
    (hr : ∀ err, r.result.err = some err → err.isPlain = false)
    (hd : ∀ resp err, decode resp = .error err → err.isPlain = false) (err : KError)
    (h : (afterTransport r decode).result.err = some err) : err.isPlain = false := by
  unfold afterTransport at h
  split at h
  · rename_i e he
    simp only [Result.err, Option.some.injEq] at h
    subst h
    exact hr e (by rw [he]; rfl)
  · rename_i v e he
    simp only [Result.err, Option.some.injEq] at h
    subst h
    exact hr e (by rw [he]; rfl)
  · split at h
    · rename_i e he
      simp only [Result.err, Option.some.injEq] at h
      subst h
      exact hd _ e he
    · simp [Result.err] at h

theorem len_replicate (ch : Char) (n : Nat) (h : ch.utf8Size = 1) :
    len (String.mk (List.replicate n ch)) = n := by
  have key : ∀ m : Nat, String.utf8Len (List.replicate m ch) = m := by
    intro m
    induction m with
    | zero => rfl
    | succ k ih => simp [List.replicate_succ, ih, h]
  simp [len, String.utf8ByteSize, key]

/-- C1: `SendMessage` returns the validation error with a nil response and
without handing any request to the HTTP client if and only if
`len(req.Message) > MaxMessageLength`, and `MaxMessageLength` is 1200.  No
other path returns that error.  A message of length exactly 1200 goes on to
`makeRequest`, which hands the POST to the HTTP client whenever
`http.NewRequest` builds it; a message of length 1201 is rejected with no
request. -/
theorem sendMessage_validation (c : Client) (rt : Runtime) (req : SendMessageRequest) :
    (((SendMessage c rt req).result.resp = none ∧
        (SendMessage c rt req).result.err = some messageTooLong ∧
        (SendMessage c rt req).sent = []) ↔ len req.Message > MaxMessageLength) ∧
    ((SendMessage c rt req).result.err = some messageTooLong ↔
      len req.Message > MaxMessageLength) ∧
    MaxMessageLength = 1200 ∧
    (len req.Message = 1200 →
      SendMessage c rt req =
          afterTransport
            (makeRequest c rt "POST" "send-message" (some (marshalSendMessageRequest req)))
            (decodeData "failed to unmarshal message response: " unmarshalSendMessageResponse
              SendMessageResponse.zero) ∧
        (rt.newRequest "POST" (c.BaseURL ++ "/" ++ "v1" ++ "/" ++ "send-message") = none →
          (SendMessage c rt req).sent =
            [postRequest rt "POST" (c.BaseURL ++ "/" ++ "v1" ++ "/" ++ "send-message")
              (some (marshalSendMessageRequest req))])) ∧
    (len req.Message = 1201 →
      (SendMessage c rt req).result.resp = none ∧
        (SendMessage c rt req).result.err = some messageTooLong ∧
        (SendMessage c rt req).sent = []) := by
  have hlong : len req.Message > MaxMessageLength →
      (SendMessage c rt req).result.resp = none ∧
        (SendMessage c rt req).result.err = some messageTooLong ∧
        (SendMessage c rt req).sent = [] := by
    intro h
    unfold SendMessage
    rw [if_pos h]
    exact ⟨rfl, rfl, rfl⟩
  have hshort : ¬ len req.Message > MaxMessageLength →
      SendMessage c rt req =
        afterTransport
          (makeRequest c rt "POST" "send-message" (some (marshalSendMessageRequest req)))
          (decodeData "failed to unmarshal message response: " unmarshalSendMessageResponse
            SendMessageResponse.zero) := by
    intro h
    unfold SendMessage
    rw [if_neg h]
  have herr : (SendMessage c rt req).result.err = some messageTooLong →
      len req.Message > MaxMessageLength := by
    intro h
    by_contra hn
    rw [hshort hn] at h
    have := afterTransport_err_not_plain _ _
      (makeRequest_err_not_plain c rt "POST" "send-message" _)
      (decodeData_err_not_plain _ _ _) messageTooLong h
    simp [messageTooLong, KError.isPlain] at this
  refine ⟨⟨fun h => herr h.2.1, hlong⟩, ⟨herr, fun h => (hlong h).2.1⟩, rfl, ?_, ?_⟩
  · intro h
    have hn : ¬ len req.Message > MaxMessageLength := by
      simp [MaxMessageLength, h]
    refine ⟨hshort hn, fun hnew => ?_⟩
    rw [hshort hn, afterTransport_sent, makeRequest_sent]
    simp only [marshalled, marshalSendMessageRequest, true_and, postURL, hnew, if_true]
  · intro h
    exact hlong (by simp [MaxMessageLength, h])

/-- C1 on the two boundary messages: 1200 bytes reach the test server, 1201
bytes (the message of `TestSendMessageTooLong`) are rejected with no request. -/
theorem sendMessage_validation_witness :
    (SendMessage NewClient (createTestServer 200 ⟨true, .null, "ok"⟩)
        ⟨"USER123", "DEVICE456", "628987654321", String.mk (List.replicate 1200 (Char.ofNat 0)),
          "test-secret", ""⟩).sent.length = 1 ∧
    (SendMessage NewClient (createTestServer 200 ⟨true, .null, "ok"⟩)
        ⟨"USER123", "DEVICE456", "628987654321", String.mk (List.replicate 1201 (Char.ofNat 0)),
          "test-secret", ""⟩).sent = [] :=
  ⟨by
    rw [((sendMessage_validation NewClient (createTestServer 200 ⟨true, .null, "ok"⟩)
      ⟨"USER123", "DEVICE456", "628987654321", String.mk (List.replicate 1200 (Char.ofNat 0)),
        "test-secret", ""⟩).2.2.2.1 (len_replicate _ 1200 (by decide))).2 rfl]
    rfl,
   ((sendMessage_validation NewClient (createTestServer 200 ⟨true, .null, "ok"⟩)
      ⟨"USER123", "DEVICE456", "628987654321", String.mk (List.replicate 1201 (Char.ofNat 0)),
        "test-secret", ""⟩).2.2.2.2 (len_replicate _ 1201 (by decide))).2.2⟩

/-! ## A map has no order: `sortKeys` on lists with distinct keys -/

theorem insertKey_perm (kv : String × JSON) (xs : List (String × JSON)) :
    (insertKey kv xs).Perm (kv :: xs) := by
  induction xs with
  | nil => exact List.Perm.refl _
  | cons x xs ih =>
    unfold insertKey
    split
    · exact List.Perm.refl _
    · exact (List.Perm.cons x ih).trans (List.Perm.swap kv x xs)

theorem sortKeys_perm (kvs : List (String × JSON)) : (sortKeys kvs).Perm kvs := by
  induction kvs with
  | nil => exact List.Perm.refl _
  | cons kv rest ih =>
    unfold sortKeys
    exact (insertKey_perm kv (sortKeys rest)).trans (List.Perm.cons kv ih)

theorem insertKey_sorted (kv : String × JSON) (xs : List (String × JSON))
    (h : xs.Pairwise fun a b => a.1.data ≤ b.1.data) :
    (insertKey kv xs).Pairwise fun a b => a.1.data ≤ b.1.data := by
  induction xs with
  | nil => simp [insertKey]
  | cons x xs ih =>
    obtain ⟨hx, hxs⟩ := List.pairwise_cons.mp h
    unfold insertKey
    split
    · rename_i hlt
      refine List.pairwise_cons.mpr ⟨fun y hy => ?_, h⟩
      rcases List.mem_cons.mp hy with rfl | hy
      · exact le_of_lt hlt
      · exact le_trans (le_of_lt hlt) (hx y hy)
    · rename_i hge
      refine List.pairwise_cons.mpr ⟨fun y hy => ?_, ih hxs⟩
      rcases List.mem_cons.mp ((insertKey_perm kv xs).mem_iff.mp hy) with rfl | hy
      · exact not_lt.mp hge
      · exact hx y hy

theorem sortKeys_sorted (kvs : List (String × JSON)) :
    (sortKeys kvs).Pairwise fun a b => a.1.data ≤ b.1.data := by
  induction kvs with
  | nil => exact List.Pairwise.nil
  | cons kv rest ih =>
    unfold sortKeys
    exact insertKey_sorted kv _ ih

/-- Two listings of the same map (same entries, distinct keys) are written
by `json.Marshal` in the same order. -/
theorem sortKeys_eq_of_perm (l₁ l₂ : List (String × JSON)) (hp : l₁.Perm l₂)
    (hnd : (l₂.map Prod.fst).Nodup) : sortKeys l₁ = sortKeys l₂ := by
  refine List.Perm.eq_of_sorted ?_ (sortKeys_sorted l₁) (sortKeys_sorted l₂)
    ((sortKeys_perm l₁).trans (hp.trans (sortKeys_perm l₂).symm))
  intro a b ha hb hab hba
  have ha2 : a ∈ l₂ := hp.mem_iff.mp ((sortKeys_perm l₁).mem_iff.mp ha)
  have hb2 : b ∈ l₂ := (sortKeys_perm l₂).mem_iff.mp hb
  have hkey : a.1 = b.1 := String.ext (le_antisymm hab hba)
  exact List.inj_on_of_nodup_map hnd ha2 hb2 hkey

/-! ## Decoding lemmas -/

theorem decodeData_null {α : Type} (unmarshalMsg : String)
    (unmarshal : α → JSON → Except LibError α) (zero : α) (resp : Response)
    (h : resp.Data = .null) : decodeData unmarshalMsg unmarshal zero resp = .ok zero := by
  unfold decodeData
  rw [h]

theorem decodeData_object {α : Type} (unmarshalMsg : String)
    (unmarshal : α → JSON → Except LibError α) (zero : α) (resp : Response)
    (kvs : List (String × JSON)) (x : α) (h : resp.Data = .object kvs)
    (hx : unmarshal zero (.object kvs) = .ok x) :
    decodeData unmarshalMsg unmarshal zero resp = .ok x := by
  unfold decodeData
  rw [h]
  simp only [jsonMarshal, hx]

theorem afterTransport_success {α : Type} (r : Out Response)
    (decode : Response → Except KError α) (e : Response) (x : α)
    (hr : r.result = .success e) (hd : decode e = .ok x) :
    (afterTransport r decode).result = .success x := by
  unfold afterTransport
  rw [hr]
  simp only [hd]

theorem afterTransport_withError {α : Type} (r : Out Response)
    (decode : Response → Except KError α) (e : Response) (err : KError)
    (hr : r.result = .withError e err) :
    (afterTransport r decode).result = .failure err := by
  unfold afterTransport
  rw [hr]

/-! ## C5: absent data gives the zero value -/

/-- C5: for GenerateOTP, ValidateOTP and SendMessage (whose transport is only
reached by a message within the cap), when `makeRequest` returns an envelope
with a nil error and the `data` of the envelope is nil, the operation returns
the zero value of its response struct (empty strings, false, 0, the zero
time) and a nil error. -/
theorem zero_response_on_absent_data (c : Client) (rt : Runtime) :
    (∀ (req : GenerateOTPRequest) (e : Response),
      (makeRequest c rt "POST" "generate-otp" (some (marshalGenerateOTPRequest req))).result =
          .success e →
        e.Data = .null →
        (GenerateOTP c rt req).result =
          .success { Phone := "", Message := "", ExpiresIn := "" }) ∧
    (∀ (req : ValidateOTPRequest) (e : Response),
      (makeRequest c rt "POST" "validate-otp" (some (marshalValidateOTPRequest req))).result =
          .success e →
        e.Data = .null →
        (ValidateOTP c rt req).result =
          .success { Phone := "", Verified := false, VerifiedAt := 0 }) ∧
    (∀ (req : SendMessageRequest) (e : Response),
      len req.Message ≤ MaxMessageLength →
      (makeRequest c rt "POST" "send-message" (some (marshalSendMessageRequest req))).result =
          .success e →
        e.Data = .null →
        (SendMessage c rt req).result =
          .success { MessageLength := 0, MediaURL := "", HasMedia := false }) := by
  refine ⟨?_, ?_, ?_⟩
  · intro req e hr hd
    exact afterTransport_success _ _ e _ hr (decodeData_null _ _ _ e hd)
  · intro req e hr hd
    exact afterTransport_success _ _ e _ hr (decodeData_null _ _ _ e hd)
  · intro req e hlen hr hd
    unfold SendMessage
    rw [if_neg (not_lt.mpr hlen)]
    exact afterTransport_success _ _ e _ hr (decodeData_null _ _ _ e hd)

/-- C5 against a test server that answers 200 with `data: null`. -/
theorem zero_response_on_absent_data_witness :
    (GenerateOTP NewClient (createTestServer 200 ⟨true, .null, "ok"⟩)
        ⟨"USER123", "DEVICE456", "628123456789", "test-secret"⟩).result =
      .success ⟨"", "", ""⟩ ∧
    (ValidateOTP NewClient (createTestServer 200 ⟨true, .null, "ok"⟩)
        ⟨"USER123", "DEVICE456", "628123456789", "123456", "test-secret"⟩).result =
      .success ⟨"", false, 0⟩ ∧
    (SendMessage NewClient (createTestServer 200 ⟨true, .null, "ok"⟩)
        ⟨"USER123", "DEVICE456", "628987654321", "Hello from test!", "test-secret", ""⟩).result =
      .success ⟨0, "", false⟩ :=
  ⟨(zero_response_on_absent_data NewClient (createTestServer 200 ⟨true, .null, "ok"⟩)).1
      ⟨"USER123", "DEVICE456", "628123456789", "test-secret"⟩ ⟨true, .null, "ok"⟩ rfl rfl,
   (zero_response_on_absent_data NewClient (createTestServer 200 ⟨true, .null, "ok"⟩)).2.1
      ⟨"USER123", "DEVICE456", "628123456789", "123456", "test-secret"⟩ ⟨true, .null, "ok"⟩
      rfl rfl,
   (zero_response_on_absent_data NewClient (createTestServer 200 ⟨true, .null, "ok"⟩)).2.2
      ⟨"USER123", "DEVICE456", "628987654321", "Hello from test!", "test-secret", ""⟩
      ⟨true, .null, "ok"⟩ (by decide) rfl rfl⟩

/-! ## C3: HTTP status 400 -/

/-- The three POST operations map a status of 400 or more to the `APIError`
of `makeRequest`, with a nil response. -/
theorem post_operations_api_error (c : Client) (rt : Runtime) (status : Int) (e : Response)
    (hs : status ≥ 400) :
    (∀ req : GenerateOTPRequest,
      rt.newRequest "POST" (postURL c "generate-otp") = none →
      Replies rt (postRequest rt "POST" (postURL c "generate-otp")
        (some (marshalGenerateOTPRequest req))) status e →
      (GenerateOTP c rt req).result = .failure (.api ⟨status, e.Message, e⟩)) ∧
    (∀ req : ValidateOTPRequest,
      rt.newRequest "POST" (postURL c "validate-otp") = none →
      Replies rt (postRequest rt "POST" (postURL c "validate-otp")
        (some (marshalValidateOTPRequest req))) status e →
      (ValidateOTP c rt req).result = .failure (.api ⟨status, e.Message, e⟩)) ∧
    (∀ req : SendMessageRequest,
      len req.Message ≤ MaxMessageLength →
      rt.newRequest "POST" (postURL c "send-message") = none →
      Replies rt (postRequest rt "POST" (postURL c "send-message")
        (some (marshalSendMessageRequest req))) status e →
      (SendMessage c rt req).result = .failure (.api ⟨status, e.Message, e⟩)) := by
  refine ⟨?_, ?_, ?_⟩
  · intro req hnew hrep
    have h := makeRequest_of_replies c rt "POST" "generate-otp" (some (marshalGenerateOTPRequest req)) status e rfl
      hnew hrep
    rw [if_pos hs] at h
    exact afterTransport_withError _ _ e _ h
  · intro req hnew hrep
    have h := makeRequest_of_replies c rt "POST" "validate-otp" (some (marshalValidateOTPRequest req)) status e rfl
      hnew hrep
    rw [if_pos hs] at h
    exact afterTransport_withError _ _ e _ h
  · intro req hlen hnew hrep
    have h := makeRequest_of_replies c rt "POST" "send-message" (some (marshalSendMessageRequest req)) status e rfl
      hnew hrep
    rw [if_pos hs] at h
    unfold SendMessage
    rw [if_neg (not_lt.mpr hlen)]
    exact afterTransport_withError _ _ e _ h

theorem makeGetRequest_err_not_api (c : Client) (rt : Runtime) (endpoint : String)
    (err : KError) (h : (makeGetRequest c rt endpoint).result.err = some err) :
    err.isAPI = false := by
  unfold makeGetRequest at h
  dsimp only at h
  split at h
  · simp only [Result.err, Option.some.injEq] at h; subst h; rfl
  · split at h
    · simp only [Result.err, Option.some.injEq] at h; subst h; rfl
    · split at h
      · simp only [Result.err, Option.some.injEq] at h; subst h; rfl
      · split at h
        · simp only [Result.err, Option.some.injEq] at h; subst h; rfl
        · simp [Result.err] at h

theorem decodeData_err_not_api {α : Type} (unmarshalMsg : String)
    (unmarshal : α → JSON → Except LibError α) (zero : α) (resp : Response) (err : KError)
    (h : decodeData unmarshalMsg unmarshal zero resp = .error err) : err.isAPI = false := by
  unfold decodeData at h
  split at h
  · simp at h
  · split at h
    · simp only [Except.error.injEq] at h; subst h; rfl
    · split at h
      · simp only [Except.error.injEq] at h; subst h; rfl
      · simp at h

/-- Go `HealthCheck` never returns an `APIError`, whatever the server answers:
`makeGetRequest` has no status check. -/
theorem healthCheck_err_not_api (c : Client) (rt : Runtime) (err : KError)
    (h : (HealthCheck c rt).result.err = some err) : err.isAPI = false := by
  unfold HealthCheck afterTransport at h
  split at h
  · rename_i e he
    simp only [Result.err, Option.some.injEq] at h
    subst h
    exact makeGetRequest_err_not_api c rt "" e (by rw [he]; rfl)
  · rename_i v e he
    simp only [Result.err, Option.some.injEq] at h
    subst h
    exact makeGetRequest_err_not_api c rt "" e (by rw [he]; rfl)
  · split at h
    · rename_i e he
      simp only [Result.err, Option.some.injEq] at h
      subst h
      dsimp only at he
      split at he
      · rename_i e2 he2
        simp only [Except.error.injEq] at he
        subst he
        exact decodeData_err_not_api _ _ _ _ _ he2
      · simp at he
    · simp [Result.err] at h

/-- C3 at its failing input: against the server of `TestAPIError` (status 400,
envelope `{success:false, data:{}, message:"bad params"}`) `GenerateOTP`
returns the `APIError` with status 400 and that message, but `HealthCheck`
returns a response carrying the message and a nil error. -/
theorem healthCheck_status_400 :
    (GenerateOTP NewClient (createTestServer 400 ⟨false, .object [], "bad params"⟩)
        ⟨"USER123", "DEVICE456", "628123456789", "test-secret"⟩).result =
      .failure (.api ⟨400, "bad params", ⟨false, .object [], "bad params"⟩⟩) ∧
    (HealthCheck NewClient (createTestServer 400 ⟨false, .object [], "bad params"⟩)).result =
      .success ⟨"", "bad params"⟩ ∧
    (HealthCheck NewClient (createTestServer 400 ⟨false, .object [], "bad params"⟩)).result.err =
      none :=
  ⟨rfl, rfl, rfl⟩

/-! ## C4: the message fallback of `HealthCheck` -/

/-- C4: when `makeGetRequest` returns the envelope `e` and `d` is the response
decoded from `e.Data` (the zero value when the data is nil): if `d.Status` and
`d.Message` are both empty, `HealthCheck` returns a response with an empty
status and the message `e.Message`; if one of them is not empty, `HealthCheck`
returns `d` itself, whatever `e.Message` is.  In particular nil data and the
empty object give the message of the envelope, and the object with the string
members `status` and `message` gives these two unless both are empty. -/
theorem healthCheck_message_fallback (c : Client) (rt : Runtime) (e : Response)
    (h : (makeGetRequest c rt "").result = .success e) :
    (∀ d : HealthCheckResponse,
      decodeData "failed to unmarshal health response: " unmarshalHealthCheckResponse
          HealthCheckResponse.zero e = .ok d →
        (d.Status = "" ∧ d.Message = "" →
          (HealthCheck c rt).result = .success { Status := "", Message := e.Message }) ∧
        (d.Status ≠ "" ∨ d.Message ≠ "" → (HealthCheck c rt).result = .success d)) ∧
    (e.Data = .null →
      (HealthCheck c rt).result = .success { Status := "", Message := e.Message }) ∧
    (e.Data = .object [] →
      (HealthCheck c rt).result = .success { Status := "", Message := e.Message }) ∧
    (∀ (kvs : List (String × JSON)) (st msg : String),
      e.Data = .object kvs → kvs.Perm [("status", .string st), ("message", .string msg)] →
        (HealthCheck c rt).result =
          .success (if st = "" ∧ msg = "" then { Status := "", Message := e.Message }
            else { Status := st, Message := msg })) := by
  have key : ∀ d : HealthCheckResponse,
      decodeData "failed to unmarshal health response: " unmarshalHealthCheckResponse
          HealthCheckResponse.zero e = .ok d →
      (HealthCheck c rt).result = .success (healthFallback e d) := by
    intro d hd
    unfold HealthCheck
    refine afterTransport_success _ _ e _ h ?_
    simp only [hd]
  refine ⟨fun d hd => ⟨fun hempty => ?_, fun hne => ?_⟩, fun hnull => ?_, fun hobj => ?_,
    fun kvs st msg hobj hperm => ?_⟩
  · rw [key d hd]
    obtain ⟨h1, h2⟩ := hempty
    simp [healthFallback, h1, h2]
  · rw [key d hd]
    have : ¬ (d.Status = "" ∧ d.Message = "") := fun hh => hne.elim (fun a => a hh.1) (fun a => a hh.2)
    simp only [healthFallback, this, if_false]
  · rw [key _ (decodeData_null _ _ _ e hnull)]
    rfl
  · rw [key _ (decodeData_object _ _ _ e [] HealthCheckResponse.zero hobj rfl)]
    rfl
  · have hsort : sortKeys kvs = sortKeys [("status", .string st), ("message", .string msg)] :=
      sortKeys_eq_of_perm _ _ hperm (by simp)
    have hdec : unmarshalHealthCheckResponse HealthCheckResponse.zero (.object kvs) =
        .ok { Status := st, Message := msg } := by
      unfold unmarshalHealthCheckResponse unmarshalStruct
      simp only [hsort]
      rfl
    rw [key _ (decodeData_object _ _ _ e kvs _ hobj hdec)]
    unfold healthFallback
    split <;> rename_i hh
    · simp only [] at hh
      simp [hh.1, hh.2]
    · simp only [] at hh
      simp [hh]

/-- C4 against the server of `TestHealthCheck` (empty `data`, message in the
envelope) and against a server that puts the status inside `data`. -/
theorem healthCheck_message_fallback_witness :
    (HealthCheck NewClient (createTestServer 200 ⟨true, .object [], "Kirimi API v1"⟩)).result =
      .success ⟨"", "Kirimi API v1"⟩ ∧
    (HealthCheck NewClient
        (createTestServer 200 ⟨true, .object [("status", .string "ok")], "Kirimi API v1"⟩)).result =
      .success ⟨"ok", ""⟩ :=
  ⟨(healthCheck_message_fallback NewClient
      (createTestServer 200 ⟨true, .object [], "Kirimi API v1"⟩) ⟨true, .object [], "Kirimi API v1"⟩
      rfl).2.2.1 rfl,
   ((healthCheck_message_fallback NewClient
      (createTestServer 200 ⟨true, .object [("status", .string "ok")], "Kirimi API v1"⟩)
      ⟨true, .object [("status", .string "ok")], "Kirimi API v1"⟩ rfl).1 ⟨"ok", ""⟩ rfl).2
      (Or.inl (by decide))⟩

/-! ## C6: decoding the OTP response -/

/-- C6: for all strings `p`, `m` and `x`, when the request is built and the
server answers with status 200 and an envelope whose `data` is the object with
exactly the members `phone: p`, `message: m` and `expires_in: x` (listed in any
order), `GenerateOTP` returns a nil error and the response with `Phone = p`,
`Message = m` and `ExpiresIn = x`, whatever the `success` and `message` of the
envelope are. -/
theorem generateOTP_decodes_data (c : Client) (rt : Runtime) (req : GenerateOTPRequest)
    (e : Response) (kvs : List (String × JSON)) (p m x : String)
    (hnew : rt.newRequest "POST" (c.BaseURL ++ "/" ++ "v1" ++ "/" ++ "generate-otp") = none)
    (hrep : Replies rt
      (postRequest rt "POST" (c.BaseURL ++ "/" ++ "v1" ++ "/" ++ "generate-otp")
        (some (marshalGenerateOTPRequest req))) 200 e)
    (hdata : e.Data = .object kvs)
    (hkvs : kvs.Perm [("phone", .string p), ("message", .string m), ("expires_in", .string x)]) :
    (GenerateOTP c rt req).result = .success { Phone := p, Message := m, ExpiresIn := x } ∧
    (GenerateOTP c rt req).result.err = none := by
  have hreq := makeRequest_of_replies c rt "POST" "generate-otp"
    (some (marshalGenerateOTPRequest req)) 200 e rfl hnew hrep
  rw [if_neg (by decide)] at hreq
  have hsort : sortKeys kvs =
      sortKeys [("phone", .string p), ("message", .string m), ("expires_in", .string x)] :=
    sortKeys_eq_of_perm _ _ hkvs (by simp)
  have hdec : unmarshalGenerateOTPResponse GenerateOTPResponse.zero (.object kvs) =
      .ok { Phone := p, Message := m, ExpiresIn := x } := by
    unfold unmarshalGenerateOTPResponse unmarshalStruct
    simp only [hsort]
    rfl
  have hres : (GenerateOTP c rt req).result =
      .success { Phone := p, Message := m, ExpiresIn := x } :=
    afterTransport_success _ _ e _ hreq (decodeData_object _ _ _ e kvs _ hdata hdec)
  exact ⟨hres, by rw [hres]; rfl⟩

/-- C6 against the server and the request of `TestGenerateOTP`. -/
theorem generateOTP_decodes_data_witness :
    (GenerateOTP NewClient
        (createTestServer 200
          ⟨true, .object [("phone", .string "628123456789"),
              ("message", .string "OTP berhasil dikirim"), ("expires_in", .string "5 menit")],
            "OTP berhasil digenerate dan dikirim"⟩)
        ⟨"USER123", "DEVICE456", "628123456789", "test-secret"⟩).result =
      .success ⟨"628123456789", "OTP berhasil dikirim", "5 menit"⟩ :=
  (generateOTP_decodes_data NewClient
    (createTestServer 200
      ⟨true, .object [("phone", .string "628123456789"),
          ("message", .string "OTP berhasil dikirim"), ("expires_in", .string "5 menit")],
        "OTP berhasil digenerate dan dikirim"⟩)
    ⟨"USER123", "DEVICE456", "628123456789", "test-secret"⟩ _ _ _ _ _ rfl
    (replies_createTestServer _ _ _) rfl (List.Perm.refl _)).1

/-! ## C11: the cap counts bytes -/

theorem len_replicate_bytes (ch : Char) (n k : Nat) (h : ch.utf8Size = k) :
    len (String.mk (List.replicate n ch)) = n * k := by
  have key : ∀ m : Nat, String.utf8Len (List.replicate m ch) = m * k := by
    intro m
    induction m with
    | zero => simp
    | succ j ih => simp [List.replicate_succ, ih, h, Nat.succ_mul]
  simp [len, String.utf8ByteSize, key]

/-- The validation error is the only error of `SendMessage` made without a
wrapped error, and it is returned exactly for a message longer than the cap. -/
theorem sendMessage_err_tooLong_iff (c : Client) (rt : Runtime) (req : SendMessageRequest) :
    (SendMessage c rt req).result.err = some messageTooLong ↔
      len req.Message > MaxMessageLength := by
  constructor
  · intro h
    by_contra hn
    unfold SendMessage at h
    rw [if_neg hn] at h
    have := afterTransport_err_not_plain _ _
      (makeRequest_err_not_plain c rt "POST" "send-message" _)
      (decodeData_err_not_plain _ _ _) messageTooLong h
    simp [messageTooLong, KError.isPlain] at this
  · intro h
    unfold SendMessage
    rw [if_pos h]
    rfl

/-- C11: `SendMessage` measures the cap in UTF-8 bytes, not in characters.
For every client and request, the validation error (whose text is
"message length exceeds maximum of 1200 characters") is returned, with a nil
response and no request handed to the HTTP client, exactly when the number of
UTF-8 bytes of `req.Message` exceeds 1200.  So a message of 401 characters
(401 euro signs, 1203 bytes), which is within 1200 characters, is rejected
with that error and no network call, for every client and every server. -/
theorem sendMessage_cap_counts_bytes (c : Client) (rt : Runtime) (req : SendMessageRequest) :
    (((SendMessage c rt req).result.resp = none ∧
        (SendMessage c rt req).result.err = some messageTooLong ∧
        (SendMessage c rt req).sent = []) ↔ req.Message.utf8ByteSize > 1200) ∧
    ((SendMessage c rt req).result.err = some messageTooLong ↔
      req.Message.utf8ByteSize > 1200) ∧
    messageTooLong.Error = "message length exceeds maximum of 1200 characters" ∧
    euroMessage.length = 401 ∧ euroMessage.length ≤ 1200 ∧ euroMessage.utf8ByteSize = 1203 ∧
    (∀ userCode deviceID receiver secret mediaURL : String,
      (SendMessage c rt ⟨userCode, deviceID, receiver, euroMessage, secret, mediaURL⟩).result.resp
          = none ∧
        (SendMessage c rt ⟨userCode, deviceID, receiver, euroMessage, secret, mediaURL⟩).result.err
          = some messageTooLong ∧
        (SendMessage c rt ⟨userCode, deviceID, receiver, euroMessage, secret, mediaURL⟩).sent
          = []) := by
  have hbytes : len req.Message > MaxMessageLength ↔ req.Message.utf8ByteSize > 1200 := by
    simp only [len, MaxMessageLength, gt_iff_lt]
    exact_mod_cast Iff.rfl
  have hlong : ∀ r : SendMessageRequest, len r.Message > MaxMessageLength →
      (SendMessage c rt r).result.resp = none ∧
        (SendMessage c rt r).result.err = some messageTooLong ∧
        (SendMessage c rt r).sent = [] := by
    intro r h
    unfold SendMessage
    rw [if_pos h]
    exact ⟨rfl, rfl, rfl⟩
  have heuro : len euroMessage = 1203 :=
    len_replicate_bytes (Char.ofNat 0x20AC) 401 3 (by decide)
  have hlen : euroMessage.length = 401 := by
    show (List.replicate 401 (Char.ofNat 0x20AC)).length = 401
    exact List.length_replicate 401 _
  refine ⟨⟨fun h => hbytes.mp ((sendMessage_err_tooLong_iff c rt req).mp h.2.1),
      fun h => hlong req (hbytes.mpr h)⟩,
    (sendMessage_err_tooLong_iff c rt req).trans hbytes, by decide, hlen, by omega, ?_, ?_⟩
  · have h := heuro
    simp only [len] at h
    exact_mod_cast h
  · intro userCode deviceID receiver secret mediaURL
    exact hlong ⟨userCode, deviceID, receiver, euroMessage, secret, mediaURL⟩
      (by simp [heuro, MaxMessageLength])

end Kirimi
